import Mathlib

/-!
Verification of the ssloc ROS node (src/main.rs): the capture → handoff →
localization pipeline.  The capture thread (lines 41-118) records audio,
republishes it, and offers `(timestamp, frame)` pairs to a bounded(1)
crossbeam channel under an overwrite-latest policy (lines 91-112).  The
ssloc thread (lines 123-215) re-checks the config (lines 136-146), receives
frames (line 147), validates the channel count (lines 156-159), and
publishes a spectrum image and one arrow marker per found source
(lines 160-211).  Machine integers of the source (u16 channel counts,
i32 marker ids) stay far from overflow in every claim considered, so they
are embedded as Nat / Int; f64 angles and positions are embedded as ℚ,
and the external nalgebra Euler-to-quaternion conversion is an abstract
parameter.
-/

namespace Ssloc

/-- Capture timestamps (`rosrust::now()`), abstracted to a counter. -/
abbrev Stamp := Nat

/-- An audio frame; the only observation the pipeline makes of it is
`audio.channels()` (main.rs line 156). -/
structure Frame where
  channels : Nat
deriving DecidableEq, Repr

/-- The handoff item `(stamp, audio)` sent on line 106 of main.rs. -/
abbrev Item := Stamp × Frame

/-- Modelled from the spec: the closed, enumerated set of sample formats of
the external `lib::Format` (`for_format!` dispatch); the spec names 16-bit
integer and 32-bit float. -/
inductive Format where
  | i16
  | f32
deriving DecidableEq, Repr

/-- Modelled from the spec: the localization-engine (MBSS) parameter bundle
of the missing `config.rs`; the pipeline only ever compares it by value
(main.rs line 140) and hands it to `create`, so it is opaque here. -/
structure Mbss where
  params : List ℚ
deriving DecidableEq, Repr

/-- Modelled from the spec: the `ConfigSnapshot` of the missing `config.rs`:
device identifier, channel count, sample rate, sample format, localisation
frame length, microphone position array, engine parameters, and maximum
number of sources.  main.rs reads exactly these fields. -/
structure Config where
  device : String
  channels : Nat
  rate : Nat
  format : Format
  localisation_frame : ℚ
  mics : List (ℚ × ℚ × ℚ)
  mbss : Mbss
  max_sources : Nat
deriving DecidableEq, Repr

/-! ## The handoff channel (crossbeam `bounded(1)`) -/

/-- Capacity of the handoff channel, `bounded(1)` on line 35 of main.rs. -/
def capacity : Nat := 1

/-- `Sender::is_full` (main.rs line 91). -/
def isFull (q : List Item) : Bool := capacity ≤ q.length

/-- `Receiver::try_recv` on a connected channel (main.rs line 92): removes
the oldest buffered item, or fails (`TryRecvError::Empty`) on an empty
buffer.  `none` is the Empty case. -/
def tryRecv (q : List Item) : Option (Item × List Item) :=
  match q with
  | [] => none
  | i :: r => some (i, r)

/-- One offer by the capture thread with no concurrent take (main.rs
lines 91-112): if the channel is full, drain one item with `try_recv`
(warning with the dropped stamp), then `send` the new item.  Returns the
new buffer and the stamp of the dropped item, if any. -/
def offerNoTake (q : List Item) (v : Item) : List Item × Option Stamp :=
  if isFull q then
    match tryRecv q with
    | some (i, r) => (r ++ [v], some i.1)
    | none => (q ++ [v], none)
  else (q ++ [v], none)

/-- A sequence of offers with no intervening take. -/
def offersRun (q : List Item) (items : List Item) : List Item :=
  items.foldl (fun qq v => (offerNoTake qq v).1) q

/-! ## The offer protocol interleaved with the consumer

The offer of main.rs lines 91-112 is three distinct channel operations —
`is_full`, `try_recv`, `send` — and the ssloc thread's `recv` (a take) can
interleave between them.  `Step` is the small-step semantics of one offer
of item `v` interleaved with consumer takes. -/

/-- Program counter of the capture thread inside one offer. -/
inductive PC where
  | atCheck
  | atRecv
  | atSend
  | sent
deriving DecidableEq, Repr

/-- Channel-plus-producer state during one offer: the buffered items, the
producer's position, and the drop warning emitted so far (the stamp carried
by the `ros_warn!` of lines 94-97, if it fired). -/
structure OfferState where
  queue : List Item
  pc : PC
  warned : Option Stamp
deriving DecidableEq, Repr

/-- Labels of the interleaved steps. -/
inductive Label where
  | checkFull
  | recvDrop
  | sendItem
  | consumerTake
deriving DecidableEq, Repr

/-- Small-step semantics of one offer of `v` (main.rs lines 91-112)
interleaved with consumer takes (line 147).  `send` only fires into a
non-full buffer — a full buffer would block the producer, which is modelled
by the absence of a step.  A consumer take removes the oldest item and can
interleave anywhere. -/
inductive Step (v : Item) : OfferState → Label → OfferState → Prop where
  | check_full (s : OfferState) (h : s.pc = PC.atCheck) (hf : isFull s.queue = true) :
      Step v s Label.checkFull { s with pc := PC.atRecv }
  | check_not_full (s : OfferState) (h : s.pc = PC.atCheck) (hf : isFull s.queue = false) :
      Step v s Label.checkFull { s with pc := PC.atSend }
  | recv_ok (s : OfferState) (i : Item) (r : List Item) (h : s.pc = PC.atRecv)
      (hq : s.queue = i :: r) :
      Step v s Label.recvDrop { queue := r, pc := PC.atSend, warned := some i.1 }
  | recv_empty (s : OfferState) (h : s.pc = PC.atRecv) (hq : s.queue = []) :
      Step v s Label.recvDrop { s with pc := PC.atSend }
  | send (s : OfferState) (h : s.pc = PC.atSend) (hq : s.queue.length < capacity) :
      Step v s Label.sendItem { s with queue := s.queue ++ [v], pc := PC.sent }
  | take (s : OfferState) (i : Item) (r : List Item) (hq : s.queue = i :: r) :
      Step v s Label.consumerTake { s with queue := r }

/-- Reflexive-transitive closure of `Step`. -/
inductive Reachable (v : Item) : OfferState → OfferState → Prop where
  | refl (s : OfferState) : Reachable v s s
  | tail (s t u : OfferState) (l : Label) (h1 : Reachable v s t) (h2 : Step v t l u) :
      Reachable v s u

/-! ## Config comparisons of the two stages -/

/-- The capture thread's rebind condition (main.rs lines 69-74): the live
update differs from the bound config in channels, device, rate, format or
localisation_frame.  `decide (· ≠ ·)` is Rust's `!=` on these by-value
comparable fields. -/
def recorderNeedsRebind (config update : Config) : Bool :=
  decide (update.channels ≠ config.channels) || decide (update.device ≠ config.device) ||
  decide (update.rate ≠ config.rate) || decide (update.format ≠ config.format) ||
  decide (update.localisation_frame ≠ config.localisation_frame)

/-- The ssloc thread's rebind condition (main.rs lines 138-141): the live
update differs from the bound config in channels, mics or mbss. -/
def sslocNeedsRebind (config update : Config) : Bool :=
  decide (update.channels ≠ config.channels) || decide (update.mics ≠ config.mics) ||
  decide (update.mbss ≠ config.mbss)

/-! ## The capture thread's iteration skeleton -/

/-- Log events of main.rs, abstracted from the format strings. -/
inductive LogMsg where
  | errCreatingRecorder
  | errRecording
  | errSendingAudio
  | warnDropped (stamp : Stamp)
  | errDisconnected
  | infoChannelMismatch
  | errSendingSpectrum
  | errSendingMarker
deriving DecidableEq, Repr

/-- The parameter tuple an `AudioRecorder` is constructed from (main.rs
lines 46-52): device name, channels, rate, format, localisation frame. -/
structure CaptureParams where
  device : String
  channels : Nat
  rate : Nat
  format : Format
  localisation_frame : ℚ
deriving DecidableEq, Repr

/-- The arguments `AudioRecorder::<FORMAT>::new` receives from a working
config at the top of the capture thread's outer loop (main.rs lines 46-52). -/
def captureParams (c : Config) : CaptureParams :=
  { device := c.device
    channels := c.channels
    rate := c.rate
    format := c.format
    localisation_frame := c.localisation_frame }

/-- How one inner iteration of the capture thread ends, as far as the
rebind protocol is concerned. -/
inductive RecorderOutcome where
  | rebind (carried : Config)
  | proceed
deriving DecidableEq, Repr

/-- The rebind decisions of one inner iteration of the capture thread
(main.rs lines 68-84): first the config check — on mismatch the working
config becomes the update and the outer loop restarts (lines 75-76); then
`record()` — on error the outer loop restarts with the working config
unchanged (lines 80-83).  `rebind c` means `continue 'recorder` with working
config `c`, so the next `AudioRecorder` is built from `captureParams c`. -/
def recorderStep (config update : Config) (recordOk : Bool) :
    RecorderOutcome × List LogMsg :=
  if recorderNeedsRebind config update then
    (RecorderOutcome.rebind update, [])
  else if recordOk then
    (RecorderOutcome.proceed, [])
  else
    (RecorderOutcome.rebind config, [LogMsg.errRecording])

/-! ## The ssloc thread -/

/-- A source estimate `(azimuth, elevation, strength)` as returned by
`mbss.find_sources` (main.rs line 173). -/
abbrev Est := ℚ × ℚ × ℚ

/-- A quaternion as published in the marker message. -/
structure Quaternion where
  x : ℚ
  y : ℚ
  z : ℚ
  w : ℚ
deriving DecidableEq, Repr

/-- `visualization_msgs::Marker::ARROW`. -/
def markerARROW : Int := 0

/-- `visualization_msgs::Marker::ADD`. -/
def markerADD : Int := 0

/-- The marker message built for one source estimate (main.rs lines
174-210).  `fe` is nalgebra's `UnitQuaternion::from_euler_angles
(roll, pitch, yaw)`, an external library function kept abstract; the code
calls it as `from_euler_angles(0., -el, az)`. -/
structure Marker where
  stamp : Stamp
  ns : String
  id : Int
  shape : Int
  position : ℚ × ℚ × ℚ
  orientation : Quaternion
  colorR : ℚ
  colorA : ℚ
  scale : ℚ × ℚ × ℚ
  action : Int
  lifetimeSec : Int
deriving DecidableEq, Repr

/-- The marker for the estimate at enumeration index `idx` (main.rs lines
174-210): `id` is `idx as i32 + 1` (line 179); the orientation is
`fe 0 (-el) az` (line 175); position is the origin; shape ARROW; action
ADD; lifetime one second (line 206); scale `(1, 0.2, 0.2)`; color red. -/
def mkMarker (fe : ℚ → ℚ → ℚ → Quaternion) (stamp : Stamp) (idx : Nat) (e : Est) :
    Marker :=
  { stamp := stamp
    ns := "sslocate"
    id := Int.ofNat idx + 1
    shape := markerARROW
    position := (0, 0, 0)
    orientation := fe 0 (-e.2.1) e.1
    colorR := 1
    colorA := 1
    scale := (1, 1 / 5, 1 / 5)
    action := markerADD
    lifetimeSec := 1 }

/-- The markers produced by `sources.into_iter().enumerate()` starting at
enumeration index `idx` (main.rs line 174). -/
def markersFromIdx (fe : ℚ → ℚ → ℚ → Quaternion) (stamp : Stamp) (idx : Nat) :
    List Est → List Marker
  | [] => []
  | e :: rest => mkMarker fe stamp idx e :: markersFromIdx fe stamp (idx + 1) rest

/-- All markers published for one frame's source list (main.rs
lines 174-211), enumeration starting at 0. -/
def markersFor (fe : ℚ → ℚ → ℚ → Quaternion) (stamp : Stamp)
    (sources : List Est) : List Marker :=
  markersFromIdx fe stamp 0 sources

/-- Messages the ssloc thread publishes in one inner iteration. -/
inductive Pub where
  | spectrumImage (stamp : Stamp)
  | marker (m : Marker)
deriving DecidableEq, Repr

/-- How one inner iteration of the ssloc thread ends. -/
inductive SslocOutcome where
  | rebind (carried : Config)
  | terminated
  | continueInner
deriving DecidableEq, Repr

/-- Everything observable about one inner iteration of the ssloc thread:
how it ends, the working config it carries on with, the `max_sources`
bound it handed to `find_sources` (if it got that far), its log events and
its published messages. -/
structure SslocStepResult where
  outcome : SslocOutcome
  config : Config
  maxSourcesUsed : Option Nat
  logs : List LogMsg
  published : List Pub
deriving DecidableEq, Repr

/-- One inner iteration of the ssloc thread (main.rs lines 135-212), with
the external engine abstracted: `findSources n` is
`mbss.find_sources(spectrum, n)` for this frame's spectrum.  In order:
(1) read the live update and rebind on a relevant change (lines 136-146),
adopting the update as working config; otherwise `max_sources` is taken
from the live update (line 145); (2) `recv` — `none` models a disconnected
channel, ending the thread (lines 147-150); (3) the channel-count check
(lines 156-159) drops a mismatched frame with one info log and continues
the inner loop; (4) otherwise the spectrum image is published (lines
160-171) and then one marker per estimate of
`find_sources(spectrum, max_sources)` (lines 173-211). -/
def sslocStep (fe : ℚ → ℚ → ℚ → Quaternion) (findSources : Nat → List Est)
    (config update : Config) (recv : Option Item) : SslocStepResult :=
  if sslocNeedsRebind config update then
    { outcome := SslocOutcome.rebind update
      config := update
      maxSourcesUsed := none
      logs := []
      published := [] }
  else
    match recv with
    | none =>
      { outcome := SslocOutcome.terminated
        config := config
        maxSourcesUsed := none
        logs := [LogMsg.errDisconnected]
        published := [] }
    | some (stamp, audio) =>
      if audio.channels ≠ config.channels then
        { outcome := SslocOutcome.continueInner
          config := config
          maxSourcesUsed := none
          logs := [LogMsg.infoChannelMismatch]
          published := [] }
      else
        { outcome := SslocOutcome.continueInner
          config := config
          maxSourcesUsed := some update.max_sources
          logs := []
          published := Pub.spectrumImage stamp ::
            (markersFor fe stamp (findSources update.max_sources)).map Pub.marker }

/-- The microphone slice handed to `config.mbss.create` at the top of the
ssloc thread's outer loop: `config.mics[..config.channels as usize]`
(main.rs lines 132-134).  Rust slice indexing panics when the end of the
range exceeds the length; `none` models that panic. -/
def mbssCreateMics (c : Config) : Option (List (ℚ × ℚ × ℚ)) :=
  if c.channels ≤ c.mics.length then some (c.mics.take c.channels) else none

/-! ## Thread results and the process exit code -/

/-- What either thread returns when the handoff channel reports
disconnection: `return Ok(())` on main.rs lines 100-103 and 108-111
(capture side) and 147-150 (ssloc side), after a `ros_err!` log. -/
def threadReturnOnDisconnect : Except String Unit := Except.ok ()

/-- What either thread returns when creating one of its publishers fails at
startup: the `?` on main.rs lines 42 and 124-127 propagates the error out
of the thread closure. -/
def threadReturnOnPublishFailure (e : String) : Except String Unit := Except.error e

/-- The process exit code as main computes it (main.rs lines 240-244):
`join()?` on each thread result in turn, and a Rust `main` returning `Err`
exits nonzero (modelled as 1) while `Ok(())` exits 0. -/
def processExitCode (sslocRes audioRes : Except String Unit) : Nat :=
  match sslocRes with
  | Except.error _ => 1
  | Except.ok _ =>
    match audioRes with
    | Except.error _ => 1
    | Except.ok _ => 0

/-! ## Concrete values used by witnesses and counterexamples -/

/-- A concrete frame with two channels. -/
def frame2 : Frame := { channels := 2 }

/-- A concrete frame with four channels. -/
def frame4 : Frame := { channels := 4 }

/-- A concrete config: two channels, two microphones. -/
def cfgA : Config :=
  { device := "default"
    channels := 2
    rate := 16000
    format := Format.f32
    localisation_frame := 1
    mics := [(0, 0, 0), (0, 1, 0)]
    mbss := { params := [1] }
    max_sources := 5 }

/-- `cfgA` with a different device: differs from `cfgA` only in a field the
capture stage depends on. -/
def cfgB : Config := { cfgA with device := "other" }

/-- `cfgA` with a different `max_sources`: differs from `cfgA` only in a
field neither stage's rebind check depends on. -/
def cfgC : Config := { cfgA with max_sources := 3 }

/-- A degenerate Euler-to-quaternion function used only to instantiate
abstract-engine arguments in witnesses. -/
def feConst : ℚ → ℚ → ℚ → Quaternion := fun _ _ _ => { x := 0, y := 0, z := 0, w := 1 }

/-- A degenerate source finder used only in witnesses: one fixed estimate. -/
def findOne : Nat → List Est := fun _ => [(1, 2, 3)]

/-! ## Helper lemmas -/

/-- An offer into a buffer of at most one item always leaves exactly the
offered item buffered. -/
theorem offerNoTake_fst (q : List Item) (v : Item) (h : q.length ≤ capacity) :
    (offerNoTake q v).1 = [v] := by
  match q with
  | [] => simp [offerNoTake, isFull, capacity, tryRecv]
  | [i] => simp [offerNoTake, isFull, capacity, tryRecv]
  | i :: j :: r => simp [capacity] at h

/-- Unfolding one offer out of a run of offers. -/
theorem offersRun_cons (q : List Item) (v : Item) (items : List Item) :
    offersRun q (v :: items) = offersRun (offerNoTake q v).1 items := rfl

/-- A nonempty run of offers leaves exactly the last offered item buffered. -/
theorem offersRun_last (q : List Item) (h : q.length ≤ capacity)
    (items : List Item) (hne : items ≠ []) :
    offersRun q items = [items.getLast hne] := by
  induction items generalizing q with
  | nil => exact absurd rfl hne
  | cons v rest ih =>
    rw [offersRun_cons, offerNoTake_fst q v h]
    match rest with
    | [] => simp [offersRun]
    | w :: rest2 =>
      rw [ih [v] (by simp [capacity]) (by simp)]
      simp [List.getLast_cons]

/-- A run of offers never buffers more than the channel capacity. -/
theorem offersRun_length (q : List Item) (h : q.length ≤ capacity)
    (items : List Item) : (offersRun q items).length ≤ capacity := by
  induction items generalizing q with
  | nil => exact h
  | cons v rest ih =>
    rw [offersRun_cons, offerNoTake_fst q v h]
    exact ih [v] (by simp [capacity])

/-- The invariant of the interleaved offer protocol: the producer only
reaches the `send` operation with an empty buffer, and the buffer never
exceeds the capacity. -/
def SendInv (s : OfferState) : Prop :=
  (s.pc = PC.atSend → s.queue = []) ∧ s.queue.length ≤ capacity

/-- Every step of the interleaved offer protocol preserves `SendInv`. -/
theorem step_preserves_sendInv (v : Item) {s t : OfferState} {l : Label}
    (hstep : Step v s l t) (h : SendInv s) : SendInv t := by
  obtain ⟨hsend, hlen⟩ := h
  cases hstep with
  | check_full h1 hf => exact ⟨by intro h2; simp at h2, hlen⟩
  | check_not_full h1 hf =>
    refine ⟨fun _ => ?_, hlen⟩
    show s.queue = []
    simp only [isFull, capacity, decide_eq_false_iff_not, not_le] at hf
    exact List.length_eq_zero.mp (by omega)
  | recv_ok i r h1 hq =>
    have hr : r = [] := by
      have h3 := hlen
      rw [hq] at h3
      simp only [List.length_cons, capacity] at h3
      exact List.length_eq_zero.mp (by omega)
    subst hr
    exact ⟨fun _ => rfl, by simp [capacity]⟩
  | recv_empty h1 hq => exact ⟨fun _ => hq, hlen⟩
  | send h1 hq =>
    refine ⟨by intro h2; simp at h2, ?_⟩
    simp only [List.length_append, List.length_cons, List.length_nil]
    simp only [capacity] at hq ⊢
    omega
  | take i r hq =>
    refine ⟨fun h2 => ?_, ?_⟩
    · have h3 := hsend h2
      rw [hq] at h3
      simp at h3
    · show r.length ≤ capacity
      have h3 := hlen
      rw [hq] at h3
      simp only [List.length_cons, capacity] at h3 ⊢
      omega

/-- `SendInv` holds in every state reachable from a state satisfying it. -/
theorem reachable_sendInv (v : Item) {s t : OfferState}
    (hr : Reachable v s t) (h : SendInv s) : SendInv t := by
  induction hr with
  | refl => exact h
  | tail t u l h1 h2 ih => exact step_preserves_sendInv v h2 ih

/-- The capture-side rebind test is true exactly when a field the capture
stage depends on changed. -/
theorem recorderNeedsRebind_true_iff (c u : Config) :
    recorderNeedsRebind c u = true ↔
      (u.channels ≠ c.channels ∨ u.device ≠ c.device ∨ u.rate ≠ c.rate ∨
       u.format ≠ c.format ∨ u.localisation_frame ≠ c.localisation_frame) := by
  simp [recorderNeedsRebind, or_assoc]

/-- The capture-side rebind test is false exactly when every field the
capture stage depends on is unchanged. -/
theorem recorderNeedsRebind_false_iff (c u : Config) :
    recorderNeedsRebind c u = false ↔
      (u.channels = c.channels ∧ u.device = c.device ∧ u.rate = c.rate ∧
       u.format = c.format ∧ u.localisation_frame = c.localisation_frame) := by
  rw [← Bool.not_eq_true, recorderNeedsRebind_true_iff]
  tauto

/-- The ssloc-side rebind test is true exactly when a field the
localization stage depends on changed. -/
theorem sslocNeedsRebind_true_iff (c u : Config) :
    sslocNeedsRebind c u = true ↔
      (u.channels ≠ c.channels ∨ u.mics ≠ c.mics ∨ u.mbss ≠ c.mbss) := by
  simp [sslocNeedsRebind, or_assoc]

/-- The ssloc-side rebind test is false exactly when every field the
localization stage depends on is unchanged. -/
theorem sslocNeedsRebind_false_iff (c u : Config) :
    sslocNeedsRebind c u = false ↔
      (u.channels = c.channels ∧ u.mics = c.mics ∧ u.mbss = c.mbss) := by
  rw [← Bool.not_eq_true, sslocNeedsRebind_true_iff]
  tauto

/-- Indexing into the enumerated marker list: the marker at position `idx`
is built from the estimate at position `idx` with enumeration index
`start + idx`. -/
theorem markersFromIdx_getElem (fe : ℚ → ℚ → ℚ → Quaternion) (stamp : Stamp) :
    ∀ (sources : List Est) (start idx : Nat),
      (markersFromIdx fe stamp start sources)[idx]? =
        (sources[idx]?).map (fun e => mkMarker fe stamp (start + idx) e) := by
  intro sources
  induction sources with
  | nil => intro start idx; simp [markersFromIdx]
  | cons e rest ih =>
    intro start idx
    match idx with
    | 0 => simp [markersFromIdx]
    | n + 1 =>
      simp only [markersFromIdx, List.getElem?_cons_succ]
      have h4 : start + (n + 1) = start + 1 + n := by omega
      rw [h4]
      exact ih (start + 1) n

/-- The enumerated marker list has one marker per estimate. -/
theorem markersFromIdx_length (fe : ℚ → ℚ → ℚ → Quaternion) (stamp : Stamp) :
    ∀ (sources : List Est) (start : Nat),
      (markersFromIdx fe stamp start sources).length = sources.length := by
  intro sources
  induction sources with
  | nil => intro start; rfl
  | cons e rest ih => intro start; simp [markersFromIdx, ih]

/-! ## Claim theorems -/

/-- Claim C1: for any sequence of offers by the capture stage to the
handoff channel with no intervening take, the channel holds exactly the
most recent `(timestamp, frame)` item offered; a subsequent take returns
that item and leaves the channel empty (so it returns no others); and at
every point of the run at most one item is buffered. -/
theorem offers_overwrite_latest (q0 : List Item) (h0 : q0.length ≤ capacity)
    (items : List Item) (hne : items ≠ []) :
    offersRun q0 items = [items.getLast hne] ∧
    tryRecv (offersRun q0 items) = some (items.getLast hne, []) ∧
    ∀ n : Nat, (offersRun q0 (items.take n)).length ≤ capacity := by
  refine ⟨offersRun_last q0 h0 items hne, ?_, ?_⟩
  · rw [offersRun_last q0 h0 items hne]
    rfl
  · intro n
    exact offersRun_length q0 h0 (items.take n)

/-- Witness for C1: three offers into an initially empty channel leave
exactly the last item, and a take returns it. -/
theorem offers_overwrite_latest_witness :
    offersRun [] [(0, frame2), (1, frame2), (2, frame2)] =
      [([(0, frame2), (1, frame2), (2, frame2)] : List Item).getLast (by decide)] ∧
    tryRecv (offersRun [] [(0, frame2), (1, frame2), (2, frame2)]) =
      some (([(0, frame2), (1, frame2), (2, frame2)] : List Item).getLast (by decide), []) ∧
    ∀ n : Nat,
      (offersRun [] (([(0, frame2), (1, frame2), (2, frame2)] : List Item).take n)).length ≤
        capacity :=
  offers_overwrite_latest [] (by decide) [(0, frame2), (1, frame2), (2, frame2)] (by decide)

/-- Claim C2: during an offer, the drop warning fires exactly when the
producer itself removes the occupant in its `try_recv` step, and it carries
the removed item's timestamp; a `try_recv` that finds the slot already
emptied by the consumer changes no warning.  Stated over the interleaved
offer semantics: (1) the only step that changes the warning is a producer
removal, and it records the removed item's stamp; (2) a producer removal
step on a nonempty slot warns with the removed stamp; (3) a producer
removal step on a slot emptied before it leaves the warning unchanged. -/
theorem drop_warning_iff_producer_removed (v : Item) :
    (∀ s t : OfferState, ∀ l : Label, Step v s l t → t.warned ≠ s.warned →
      l = Label.recvDrop ∧ s.pc = PC.atRecv ∧
      ∃ i : Item, ∃ r : List Item, s.queue = i :: r ∧ t.warned = some i.1 ∧ t.queue = r) ∧
    (∀ s t : OfferState, ∀ i : Item, ∀ r : List Item, Step v s Label.recvDrop t →
      s.queue = i :: r → t.warned = some i.1 ∧ t.queue = r) ∧
    (∀ s t : OfferState, Step v s Label.recvDrop t → s.queue = [] →
      t.warned = s.warned) := by
  refine ⟨?_, ?_, ?_⟩
  · intro s t l hstep hw
    cases hstep with
    | check_full h1 hf => exact absurd rfl hw
    | check_not_full h1 hf => exact absurd rfl hw
    | recv_ok i r h1 hq =>
      refine ⟨rfl, h1, i, r, hq, rfl, rfl⟩
    | recv_empty h1 hq => exact absurd rfl hw
    | send h1 hq => exact absurd rfl hw
    | take i r hq => exact absurd rfl hw
  · intro s t i r hstep hq
    cases hstep with
    | recv_ok i2 r2 h1 hq2 =>
      rw [hq] at hq2
      obtain ⟨hi, hr⟩ := List.cons.inj hq2.symm
      subst hi
      subst hr
      exact ⟨rfl, rfl⟩
    | recv_empty h1 hq2 =>
      rw [hq] at hq2
      exact absurd hq2 (List.cons_ne_nil i r)
  · intro s t hstep hq
    cases hstep with
    | recv_ok i r h1 hq2 =>
      rw [hq] at hq2
      exact absurd hq2.symm (List.cons_ne_nil i r)
    | recv_empty h1 hq2 => rfl

/-- Witness for C2: a concrete producer removal on a slot holding the item
stamped 0 warns with stamp 0 and empties the slot. -/
theorem drop_warning_iff_producer_removed_witness :
    ({ queue := [], pc := PC.atSend, warned := some 0 } : OfferState).warned =
      some ((0, frame2) : Item).1 ∧
    ({ queue := [], pc := PC.atSend, warned := some 0 } : OfferState).queue = [] :=
  (drop_warning_iff_producer_removed (1, frame2)).2.1
    { queue := [(0, frame2)], pc := PC.atRecv, warned := none }
    { queue := [], pc := PC.atSend, warned := some 0 }
    (0, frame2) []
    (Step.recv_ok _ (0, frame2) [] rfl rfl) rfl

/-- Claim C7: the capture stage never blocks waiting on the consumer while
offering: in every state of the interleaved offer protocol reachable from
the start of an offer (producer at the `is_full` check, at most one item
buffered), when the producer is at its `send` step the slot is empty — in
particular not full — so the send completes without waiting. -/
theorem capture_send_never_blocks (v : Item) (s0 s : OfferState)
    (hpc : s0.pc = PC.atCheck) (hq : s0.queue.length ≤ capacity)
    (hr : Reachable v s0 s) (hs : s.pc = PC.atSend) :
    s.queue = [] ∧ isFull s.queue = false ∧ s.queue.length < capacity := by
  have hinv : SendInv s := by
    refine reachable_sendInv v hr ⟨?_, hq⟩
    intro h2
    rw [hpc] at h2
    simp at h2
  obtain ⟨hsend, hlen⟩ := hinv
  have he := hsend hs
  refine ⟨he, ?_, ?_⟩
  · rw [he]
    rfl
  · rw [he]
    simp [capacity]

/-- Witness for C7: a concrete interleaving — full at the check, the
producer drains the occupant — reaches the send step with an empty slot. -/
theorem capture_send_never_blocks_witness :
    ({ queue := [], pc := PC.atSend, warned := some 0 } : OfferState).queue = [] ∧
    isFull ({ queue := [], pc := PC.atSend, warned := some 0 } : OfferState).queue = false ∧
    ({ queue := [], pc := PC.atSend, warned := some 0 } : OfferState).queue.length < capacity :=
  capture_send_never_blocks (1, frame2)
    { queue := [(0, frame2)], pc := PC.atCheck, warned := none }
    { queue := [], pc := PC.atSend, warned := some 0 }
    rfl (by decide)
    (Reachable.tail _ _ _ Label.recvDrop
      (Reachable.tail _ _ _ Label.checkFull (Reachable.refl _)
        (Step.check_full _ rfl (by decide)))
      (Step.recv_ok _ (0, frame2) [] rfl rfl))
    rfl

/-- Claim C3: rebind is value-based in both stages — an equal-by-value
snapshot triggers no rebind; the capture stage's test fires exactly when
device, channel count, rate, format or localisation frame changed; the
ssloc stage's test fires exactly when channel count, mics or mbss
parameters changed; and a change confined to the other stage's fields
(or to `max_sources`) does not fire this stage's test. -/
theorem rebind_is_value_based :
    (∀ c u : Config, u = c →
      recorderNeedsRebind c u = false ∧ sslocNeedsRebind c u = false) ∧
    (∀ c u : Config, recorderNeedsRebind c u = true ↔
      (u.channels ≠ c.channels ∨ u.device ≠ c.device ∨ u.rate ≠ c.rate ∨
       u.format ≠ c.format ∨ u.localisation_frame ≠ c.localisation_frame)) ∧
    (∀ c u : Config, sslocNeedsRebind c u = true ↔
      (u.channels ≠ c.channels ∨ u.mics ≠ c.mics ∨ u.mbss ≠ c.mbss)) ∧
    (∀ c u : Config, u.channels = c.channels → u.device = c.device → u.rate = c.rate →
      u.format = c.format → u.localisation_frame = c.localisation_frame →
      recorderNeedsRebind c u = false) ∧
    (∀ c u : Config, u.channels = c.channels → u.mics = c.mics → u.mbss = c.mbss →
      sslocNeedsRebind c u = false) := by
  refine ⟨?_, recorderNeedsRebind_true_iff, sslocNeedsRebind_true_iff, ?_, ?_⟩
  · intro c u h
    subst h
    exact ⟨(recorderNeedsRebind_false_iff u u).mpr ⟨rfl, rfl, rfl, rfl, rfl⟩,
      (sslocNeedsRebind_false_iff u u).mpr ⟨rfl, rfl, rfl⟩⟩
  · intro c u h1 h2 h3 h4 h5
    exact (recorderNeedsRebind_false_iff c u).mpr ⟨h1, h2, h3, h4, h5⟩
  · intro c u h1 h2 h3
    exact (sslocNeedsRebind_false_iff c u).mpr ⟨h1, h2, h3⟩

/-- Witness for C3: an identical snapshot rebinds neither stage; a
`max_sources`-only change rebinds neither stage; a device-only change does
not rebind the ssloc stage. -/
theorem rebind_is_value_based_witness :
    (recorderNeedsRebind cfgA cfgA = false ∧ sslocNeedsRebind cfgA cfgA = false) ∧
    recorderNeedsRebind cfgA cfgC = false ∧
    sslocNeedsRebind cfgA cfgC = false ∧
    sslocNeedsRebind cfgA cfgB = false :=
  ⟨rebind_is_value_based.1 cfgA cfgA rfl,
   rebind_is_value_based.2.2.2.1 cfgA cfgC rfl rfl rfl rfl rfl,
   rebind_is_value_based.2.2.2.2 cfgA cfgC rfl rfl rfl,
   rebind_is_value_based.2.2.2.2 cfgA cfgB rfl rfl rfl⟩

/-- Counterexample to claim C4 as stated: both stages terminating on a
disconnected handoff channel return `Ok(())`, and main's join-and-propagate
then exits with status 0, not non-zero. -/
theorem exit_nonzero_on_disconnect_counterexample :
    threadReturnOnDisconnect = Except.ok () ∧
    processExitCode threadReturnOnDisconnect threadReturnOnDisconnect = 0 :=
  ⟨rfl, rfl⟩

/-- Claim C4 amended: a stage that terminates because the handoff channel
is disconnected returns success, so the process exit status is 0 in that
case as well as on clean shutdown; the exit status is non-zero exactly when
one of the stages returns an error, as on a startup failure of a publish
endpoint. -/
theorem exit_code_zero_unless_stage_error :
    (∀ a b : Except String Unit,
      processExitCode a b = 0 ↔ (a = Except.ok () ∧ b = Except.ok ())) ∧
    processExitCode threadReturnOnDisconnect threadReturnOnDisconnect = 0 ∧
    (∀ e : String,
      processExitCode (threadReturnOnPublishFailure e) threadReturnOnDisconnect ≠ 0 ∧
      processExitCode threadReturnOnDisconnect (threadReturnOnPublishFailure e) ≠ 0) := by
  refine ⟨?_, rfl, ?_⟩
  · intro a b
    cases a with
    | error e => simp [processExitCode]
    | ok u =>
      cases b with
      | error e => simp [processExitCode]
      | ok w => simp [processExitCode]
  · intro e
    exact ⟨by simp [processExitCode, threadReturnOnPublishFailure],
      by simp [processExitCode, threadReturnOnPublishFailure, threadReturnOnDisconnect]⟩

/-- Witness for C4 (amended): a publish startup failure in the ssloc stage
makes the exit status non-zero. -/
theorem exit_code_zero_unless_stage_error_witness :
    processExitCode (threadReturnOnPublishFailure "publish failed") threadReturnOnDisconnect ≠ 0 ∧
    processExitCode threadReturnOnDisconnect (threadReturnOnPublishFailure "publish failed") ≠ 0 :=
  exit_code_zero_unless_stage_error.2.2 "publish failed"

/-- Counterexample to claim C5 as stated: mismatched frames are not
counted.  The localization stage's only cross-iteration state is its
working config; after dropping one mismatched frame and after dropping two,
that state is identical (so no component of the stage records how many
frames were dropped), and the drop's whole observable effect is a single
info log with nothing published. -/
theorem mismatch_drop_not_counted_counterexample :
    (sslocStep feConst findOne cfgA cfgA (some (7, frame4))).config = cfgA ∧
    (sslocStep feConst findOne
        (sslocStep feConst findOne cfgA cfgA (some (7, frame4))).config
        cfgA (some (8, frame4))).config =
      (sslocStep feConst findOne cfgA cfgA (some (7, frame4))).config ∧
    (sslocStep feConst findOne cfgA cfgA (some (7, frame4))).logs =
      [LogMsg.infoChannelMismatch] ∧
    (sslocStep feConst findOne cfgA cfgA (some (7, frame4))).published = [] := by
  refine ⟨?_, ?_, ?_, ?_⟩ <;> decide

/-- Claim C5 amended: a received frame whose channel count disagrees with
the bound channel count is dropped with a single info log (no counter is
maintained); the stage continues its inner loop without rebinding, keeps
its working config, and publishes nothing — in particular no marker
computed from such a frame. -/
theorem mismatched_frame_dropped (fe : ℚ → ℚ → ℚ → Quaternion)
    (findSources : Nat → List Est) (c u : Config) (stamp : Stamp) (audio : Frame)
    (hre : sslocNeedsRebind c u = false) (hch : audio.channels ≠ c.channels) :
    sslocStep fe findSources c u (some (stamp, audio)) =
      { outcome := SslocOutcome.continueInner
        config := c
        maxSourcesUsed := none
        logs := [LogMsg.infoChannelMismatch]
        published := [] } := by
  simp [sslocStep, hre, hch]

/-- Witness for C5 (amended): a four-channel frame under a two-channel
config is dropped with one info log and no publishes. -/
theorem mismatched_frame_dropped_witness :
    sslocStep feConst findOne cfgA cfgA (some (7, frame4)) =
      { outcome := SslocOutcome.continueInner
        config := cfgA
        maxSourcesUsed := none
        logs := [LogMsg.infoChannelMismatch]
        published := [] } :=
  mismatched_frame_dropped feConst findOne cfgA cfgA 7 frame4 (by decide) (by decide)

/-- Counterexample to claim C6 as stated: an error-triggered rebind does
not reconstruct from the then-current config snapshot and is not treated
identically to a config change.  Concretely, with bound config `cfgA`
passing its check and `record()` failing, the outer loop is restarted
carrying `cfgA` itself; if the live snapshot has meanwhile become `cfgB`
(a different device), the next recorder is built from `cfgA`'s capture
parameters, which differ from `cfgB`'s — whereas a config-change-triggered
rebind carries the update. -/
theorem record_error_rebind_keeps_bound_config :
    recorderStep cfgA cfgA false = (RecorderOutcome.rebind cfgA, [LogMsg.errRecording]) ∧
    captureParams cfgA ≠ captureParams cfgB ∧
    recorderStep cfgA cfgA false ≠ (RecorderOutcome.rebind cfgB, [LogMsg.errRecording]) := by
  refine ⟨?_, ?_, ?_⟩ <;> decide

/-- Claim C6 amended: every Bound→Rebinding transition restarts the outer
loop with the stage's working config, from which the resource is
reconstructed — on a detected config change the working config is first set
to the update read at detection time (in either stage), while on a
`record()` error the working config is left unchanged, so the recorder is
rebuilt from the previously bound snapshot and a concurrent config change
is only adopted at the next inner-loop check. -/
theorem rebind_reconstruction_source (c u : Config) (ok : Bool) :
    (recorderNeedsRebind c u = true →
      recorderStep c u ok = (RecorderOutcome.rebind u, [])) ∧
    (recorderNeedsRebind c u = false → ok = false →
      recorderStep c u ok = (RecorderOutcome.rebind c, [LogMsg.errRecording])) ∧
    (recorderNeedsRebind c u = false → ok = true →
      recorderStep c u ok = (RecorderOutcome.proceed, [])) ∧
    (∀ fe : ℚ → ℚ → ℚ → Quaternion, ∀ findSources : Nat → List Est,
      ∀ recv : Option Item, sslocNeedsRebind c u = true →
      (sslocStep fe findSources c u recv).config = u ∧
      (sslocStep fe findSources c u recv).outcome = SslocOutcome.rebind u) := by
  refine ⟨?_, ?_, ?_, ?_⟩
  · intro h
    simp [recorderStep, h]
  · intro h hok
    simp [recorderStep, h, hok]
  · intro h hok
    simp [recorderStep, h, hok]
  · intro fe findSources recv h
    constructor <;> simp [sslocStep, h]

/-- Witness for C6 (amended): a device change detected by the capture
stage restarts the outer loop carrying the update `cfgB`; a `record()`
error under an unchanged config restarts it carrying the bound `cfgA`. -/
theorem rebind_reconstruction_source_witness :
    recorderStep cfgA cfgB true = (RecorderOutcome.rebind cfgB, []) ∧
    recorderStep cfgA cfgA false = (RecorderOutcome.rebind cfgA, [LogMsg.errRecording]) :=
  ⟨(rebind_reconstruction_source cfgA cfgB true).1 (by decide),
   (rebind_reconstruction_source cfgA cfgA false).2.1 (by decide) rfl⟩

/-- Counterexample to claim C8 as stated: the marker id is not the
within-frame rank index.  For a single estimate at rank index 0 the
published marker carries id 1 (`idx as i32 + 1`), not 0. -/
theorem marker_id_is_not_rank_counterexample :
    (markersFor feConst 0 [(1, 2, 3)]).map Marker.id ≠ [0] ∧
    (markersFor feConst 0 [(1, 2, 3)]).map Marker.id = [1] := by
  constructor <;> decide

/-- Claim C8 amended: for every source estimate `(az, el, strength)` at
rank index `idx`, the localization stage publishes exactly one marker —
orientation the quaternion of the Euler rotation with zero roll, negated
elevation as pitch and azimuth as yaw; shape ARROW; position the origin;
action ADD; a one-second lifetime — whose id is the rank index plus one. -/
theorem one_marker_per_estimate (fe : ℚ → ℚ → ℚ → Quaternion) (stamp : Stamp)
    (sources : List Est) :
    (markersFor fe stamp sources).length = sources.length ∧
    ∀ (idx : Nat) (az el strength : ℚ), sources[idx]? = some (az, el, strength) →
      (markersFor fe stamp sources)[idx]? = some
        { stamp := stamp
          ns := "sslocate"
          id := Int.ofNat idx + 1
          shape := markerARROW
          position := (0, 0, 0)
          orientation := fe 0 (-el) az
          colorR := 1
          colorA := 1
          scale := (1, 1 / 5, 1 / 5)
          action := markerADD
          lifetimeSec := 1 } := by
  refine ⟨markersFromIdx_length fe stamp sources 0, ?_⟩
  intro idx az el strength hsrc
  rw [markersFor, markersFromIdx_getElem fe stamp sources 0 idx, hsrc]
  simp [mkMarker]

/-- Witness for C8 (amended): one estimate at azimuth 1, elevation 2
yields one marker with id 1 and orientation `fe 0 (-2) 1`. -/
theorem one_marker_per_estimate_witness :
    (markersFor feConst 5 [(1, 2, 3)]).length = 1 ∧
    (markersFor feConst 5 [(1, 2, 3)])[0]? = some
      { stamp := 5
        ns := "sslocate"
        id := Int.ofNat 0 + 1
        shape := markerARROW
        position := (0, 0, 0)
        orientation := feConst 0 (-2) 1
        colorR := 1
        colorA := 1
        scale := (1, 1 / 5, 1 / 5)
        action := markerADD
        lifetimeSec := 1 } :=
  ⟨(one_marker_per_estimate feConst 5 [(1, 2, 3)]).1,
   (one_marker_per_estimate feConst 5 [(1, 2, 3)]).2 0 1 2 3 rfl⟩

/-- Claim C9: constructing the localization engine slices exactly the
first `channels` entries of the microphone array; whenever the array's
length is at least the channel count the slice is in bounds — the slice has
exactly `channels` entries and agrees with the array entrywise — and
construction does not panic; the stage performs no length check of its own,
so a config with fewer microphones than channels panics (the `none` case)
at every outer-loop iteration it reaches. -/
theorem mbss_slice_first_channels (c : Config) (h : c.channels ≤ c.mics.length) :
    mbssCreateMics c = some (c.mics.take c.channels) ∧
    (c.mics.take c.channels).length = c.channels ∧
    (∀ i : Nat, i < c.channels → (c.mics.take c.channels)[i]? = c.mics[i]?) ∧
    (∀ c2 : Config, c2.mics.length < c2.channels → mbssCreateMics c2 = none) := by
  refine ⟨if_pos h, ?_, ?_, ?_⟩
  · rw [List.length_take]
    omega
  · intro i hi
    exact List.getElem?_take_of_lt hi
  · intro c2 h2
    rw [mbssCreateMics, if_neg (by omega)]

/-- Witness for C9: `cfgA` has two microphones for two channels, so the
engine is built from exactly those two positions. -/
theorem mbss_slice_first_channels_witness :
    mbssCreateMics cfgA = some (cfgA.mics.take cfgA.channels) ∧
    (cfgA.mics.take cfgA.channels).length = cfgA.channels ∧
    (∀ i : Nat, i < cfgA.channels → (cfgA.mics.take cfgA.channels)[i]? = cfgA.mics[i]?) ∧
    (∀ c2 : Config, c2.mics.length < c2.channels → mbssCreateMics c2 = none) :=
  mbss_slice_first_channels cfgA (by decide)

/-- Claim C10: on an iteration whose config check passes, the
`max_sources` bound handed to `find_sources` is the live update's value,
not the bound config's; so an update changing only `max_sources` causes no
rebind and takes effect on the very next processed frame. -/
theorem max_sources_read_live (fe : ℚ → ℚ → ℚ → Quaternion)
    (findSources : Nat → List Est) (c u : Config) (stamp : Stamp) (audio : Frame)
    (hch : u.channels = c.channels) (hmics : u.mics = c.mics) (hmbss : u.mbss = c.mbss)
    (haudio : audio.channels = c.channels) :
    (sslocStep fe findSources c u (some (stamp, audio))).outcome =
      SslocOutcome.continueInner ∧
    (sslocStep fe findSources c u (some (stamp, audio))).maxSourcesUsed =
      some u.max_sources ∧
    (sslocStep fe findSources c u (some (stamp, audio))).published =
      Pub.spectrumImage stamp ::
        (markersFor fe stamp (findSources u.max_sources)).map Pub.marker := by
  have hre : sslocNeedsRebind c u = false :=
    (sslocNeedsRebind_false_iff c u).mpr ⟨hch, hmics, hmbss⟩
  refine ⟨?_, ?_, ?_⟩ <;> simp [sslocStep, hre, haudio]

/-- Witness for C10: under bound config `cfgA` (max_sources 5) and live
update `cfgC` (max_sources 3), the processed frame uses 3 without a
rebind. -/
theorem max_sources_read_live_witness :
    (sslocStep feConst findOne cfgA cfgC (some (9, frame2))).outcome =
      SslocOutcome.continueInner ∧
    (sslocStep feConst findOne cfgA cfgC (some (9, frame2))).maxSourcesUsed =
      some cfgC.max_sources ∧
    (sslocStep feConst findOne cfgA cfgC (some (9, frame2))).published =
      Pub.spectrumImage 9 ::
        (markersFor feConst 9 (findOne cfgC.max_sources)).map Pub.marker :=
  max_sources_read_live feConst findOne cfgA cfgC 9 frame2 rfl rfl rfl rfl

end Ssloc
